import Mathlib

/-!
Shallow embedding of the TwinCosmos repository: the tokamak fusion simulator
(src/simulators/fusion.js), the V5 decision engine (src/decision/engine.js),
the in-memory key-value store and the TwinCosmos driver (src/index.js).
Numbers are modelled as real numbers; JS objects become structures; the
stateful methods become functions returning the updated structure.  The
theorems at the end check the specification's claims against this embedding.
-/

noncomputable section

/-- JS fallback `v || d` for an optional numeric field: a missing field or a
present-but-zero (falsy) value falls back to the default. -/
def jsOrNum (v : Option ℝ) (d : ℝ) : ℝ :=
  match v with
  | some x => if x = 0 then d else x
  | none => d

/-- JS fallback `v || d` for an optional string field: missing or empty
(falsy) falls back to the default. -/
def jsOrStr (v : Option String) (d : String) : String :=
  match v with
  | some x => if x = "" then d else x
  | none => d

/-- Phase labels of the simulator (the source stores them as strings
ignition, ramp-up, burn, decline). -/
inductive Phase where
  | ignition
  | rampUp
  | burn
  | decline
deriving DecidableEq

/-- One history snapshot, as pushed by FusionSimulator.step. -/
structure Snapshot where
  time : ℝ
  temperature : ℝ
  density : ℝ
  fusionPower : ℝ
  stability : ℝ
  phase : Phase

/-- The mutable this.state record of FusionSimulator. -/
structure SimState where
  temperature : ℝ
  density : ℝ
  confinementTime : ℝ
  fusionPower : ℝ
  stability : ℝ
  phase : Phase
  time : ℝ
  history : List Snapshot

/-- The constructor's config argument: every key is optional. -/
structure FusionConfig where
  reactorType : Option String := none
  initialTemperature : Option ℝ := none
  initialDensity : Option ℝ := none
  confinementTime : Option ℝ := none
  majorRadius : Option ℝ := none
  minorRadius : Option ℝ := none
  magneticField : Option ℝ := none

/-- The merged this.config record.  In the source the object literal lists
defaulted entries first and then spreads the raw config last, so a key that
is present in the config always wins with its raw value (even a falsy 0),
and the defaults apply only to absent keys; hence plain Option.getD. -/
structure ResolvedConfig where
  reactorType : String
  initialTemperature : ℝ
  initialDensity : ℝ
  confinementTime : ℝ
  majorRadius : ℝ
  minorRadius : ℝ
  magneticField : ℝ

/-- The this.v5Params record of the simulator. -/
structure V5Params where
  barrier : ℝ
  gamma : ℝ
  rangeMin : ℝ
  rangeMax : ℝ

/-- A FusionSimulator instance: config, state and V5 parameters. -/
structure FusionSimulator where
  config : ResolvedConfig
  state : SimState
  v5Params : V5Params

/-- The FusionSimulator constructor. -/
def mkFusionSimulator (config : FusionConfig) : FusionSimulator :=
  let cfg : ResolvedConfig :=
    { reactorType := config.reactorType.getD "tokamak"
      initialTemperature := config.initialTemperature.getD 1e8
      initialDensity := config.initialDensity.getD 1e20
      confinementTime := config.confinementTime.getD 3.0
      majorRadius := config.majorRadius.getD 6.0
      minorRadius := config.minorRadius.getD 2.0
      magneticField := config.magneticField.getD 5.0 }
  { config := cfg
    state :=
      { temperature := cfg.initialTemperature
        density := cfg.initialDensity
        confinementTime := cfg.confinementTime
        fusionPower := 0
        stability := 0.5
        phase := Phase.ignition
        time := 0
        history := [] }
    v5Params := { barrier := 0.5, gamma := 2.0, rangeMin := 0, rangeMax := 1 } }

/-- FusionSimulator.calculateFusionPower: simplified D-T reactivity model on
the current state. -/
def calculateFusionPower (sim : FusionSimulator) : ℝ :=
  let n := sim.state.density
  let T := sim.state.temperature
  let T_keV := T / 1.16e7
  let sigma_v := 1.1e-21 * T_keV ^ 2 / (1 + T_keV / 15)
  let E_fusion := 17.6 * 1.602e-13
  n * n * sigma_v * E_fusion

/-- FusionSimulator.normalizeInput: clamp to the unit interval. -/
def normalizeInput (value : ℝ) : ℝ :=
  max 0 (min 1 value)

/-- FusionSimulator.calculateV5Barrier: the logistic scorer on the clamped
input, with the instance's barrier and gamma. -/
def calculateV5Barrier (sim : FusionSimulator) (input : ℝ) : ℝ :=
  let barrier := sim.v5Params.barrier
  let gamma := sim.v5Params.gamma
  let Input := normalizeInput input
  let exponent := -2 * gamma * (Input - barrier)
  1 / (1 + Real.exp exponent)

/-- FusionSimulator.calculateStability: normalized triple product capped at
one. -/
def calculateStability (sim : FusionSimulator) : ℝ :=
  let n := sim.state.density / 1e20
  let T := sim.state.temperature / 1e8
  let tau := sim.state.confinementTime / 3.0
  let tripleProduct := n * T * tau
  let lawsonLimit := 3e21
  min 1 (tripleProduct / lawsonLimit)

/-- First half of FusionSimulator.step: time, temperature, density,
confinement and fusionPower updates (everything before the stability and
phase assignments). -/
def stepMid (sim : FusionSimulator) (deltaTime : ℝ) : FusionSimulator :=
  let heatingPower : ℝ := 50e6
  let coolingFactor : ℝ := 0.01
  let fusionPower := calculateFusionPower sim
  let temp1 := sim.state.temperature + (heatingPower + fusionPower) * deltaTime / 1000
  let temp2 := temp1 * (1 - coolingFactor * deltaTime)
  let fuelingRate : ℝ := 1e18
  let dens1 := sim.state.density + fuelingRate * deltaTime
  let dens2 := dens1 * (1 - 0.001 * deltaTime)
  let confinement := 3.0 * (1 + 0.1 * Real.logb 10 (temp2 / 1e8))
  { sim with
    state :=
      { sim.state with
        time := sim.state.time + deltaTime
        temperature := temp2
        density := dens2
        confinementTime := confinement
        fusionPower := fusionPower } }

/-- Second half of FusionSimulator.step: stability via the V5 scorer and the
phase transition rule, evaluated on the already-updated state. -/
def stepCore (sim : FusionSimulator) (deltaTime : ℝ) : FusionSimulator :=
  let simMid := stepMid sim deltaTime
  let stability := calculateV5Barrier simMid (calculateStability simMid)
  let phase1 :=
    if simMid.state.temperature > 1e8 ∧ simMid.state.fusionPower > 1e6 then Phase.burn
    else if simMid.state.temperature > 5e7 then Phase.rampUp
    else sim.state.phase
  { simMid with
    state := { simMid.state with stability := stability, phase := phase1 } }

/-- The snapshot pushed onto history at the end of FusionSimulator.step,
built from the updated state. -/
def snapOf (sim : FusionSimulator) : Snapshot :=
  { time := sim.state.time
    temperature := sim.state.temperature
    density := sim.state.density
    fusionPower := sim.state.fusionPower
    stability := sim.state.stability
    phase := sim.state.phase }

/-- FusionSimulator.step: update the state, push the snapshot, and shift the
oldest entry out when the history exceeds 1000 entries. -/
def FusionSimulator.step (sim : FusionSimulator) (deltaTime : ℝ) : FusionSimulator :=
  let s1 := stepCore sim deltaTime
  let hist1 := s1.state.history ++ [snapOf s1]
  let hist2 := if hist1.length > 1000 then hist1.tail else hist1
  { s1 with state := { s1.state with history := hist2 } }

/-- An applyControl argument: each field may be absent. -/
structure Control where
  heating : Option ℝ := none
  fueling : Option ℝ := none
  magneticField : Option ℝ := none

/-- FusionSimulator.applyControl.  Each `if (control.x)` guard is JS
truthiness: the branch runs only for a present, nonzero value.  The heating
branch has an empty body in the source. -/
def applyControl (sim : FusionSimulator) (control : Control) : FusionSimulator :=
  let sim1 := sim
  let sim2 :=
    match control.fueling with
    | some f =>
        if f = 0 then sim1
        else { sim1 with state := { sim1.state with density := sim1.state.density * (1 + f) } }
    | none => sim1
  match control.magneticField with
  | some b =>
      if b = 0 then sim2
      else { sim2 with config := { sim2.config with magneticField := b } }
  | none => sim2

/-- Iterated FusionSimulator.step over a list of deltaTime values. -/
def runSim (sim : FusionSimulator) (dts : List ℝ) : FusionSimulator :=
  dts.foldl FusionSimulator.step sim

/-- The snapshots appended tick by tick over a run: element k is the snapshot
pushed during tick number k+1. -/
def snapList : FusionSimulator → List ℝ → List Snapshot
  | _, [] => []
  | sim, dt :: dts => snapOf (stepCore sim dt) :: snapList (FusionSimulator.step sim dt) dts

end

/-! Decision engine (src/decision/engine.js). -/

noncomputable section

/-- A learned pattern aggregate, as seeded and updated by learn. -/
structure PatternData where
  temperature : ℝ
  density : ℝ
  stability : ℝ
  fusionPower : ℝ
  count : ℕ
  totalScore : ℝ

/-- The current-best algorithm label per control category. -/
structure Best where
  heating : String
  fueling : String
  magnetic : String
deriving DecidableEq

/-- The DecisionEngine constructor config (numeric keys only; the memory
reference is never read by the engine). -/
structure EngineConfig where
  decisionThreshold : Option ℝ := none
  explorationRate : Option ℝ := none
  barrier : Option ℝ := none
  gamma : Option ℝ := none

/-- The state subset embedded in a decision. -/
structure DecisionState where
  temperature : ℝ
  density : ℝ
  stability : ℝ
  phase : Phase

/-- The chosen label per control category. -/
structure DecisionActions where
  heating : String
  fueling : String
  magnetic : String

/-- A Decision record as produced by decide. -/
structure Decision where
  timestamp : ℕ
  state : DecisionState
  actions : DecisionActions
  rationale : List String
  confidence : ℝ
  shouldAct : Prop

/-- The result record of calculateDecision. -/
structure V5Result where
  probability : ℝ
  confidence : ℝ
  shouldDecide : Prop
  matchScore : ℝ

/-- A DecisionEngine instance.  The config spread puts raw present keys last,
so thresholds resolve by plain getD, while the separately built v5Params use
the `||` fallback (jsOrNum).  patterns is the insertion-ordered Map. -/
structure DecisionEngine where
  decisionThreshold : ℝ
  explorationRate : ℝ
  barrier : ℝ
  gamma : ℝ
  patterns : List (String × PatternData)
  history : List Decision
  currentBest : Best

/-- The DecisionEngine constructor. -/
def mkDecisionEngine (config : EngineConfig) : DecisionEngine :=
  { decisionThreshold := config.decisionThreshold.getD 0.7
    explorationRate := config.explorationRate.getD 0.1
    barrier := jsOrNum config.barrier 0.5
    gamma := jsOrNum config.gamma 1.5
    patterns := []
    history := []
    currentBest := { heating := "PID", fueling := "Feedback", magnetic := "Adaptive" } }

/-- JS property lookup on an arbitrary value, for the pattern argument of
compareState: a lookup either finds a numeric property or yields undefined. -/
def JsObj : Type := String → Option ℝ

/-- Property lookup on a JS string: a string owns none of the numeric
pattern properties, so every lookup yields undefined. -/
def stringProps (_s : String) : JsObj := fun _ => none

/-- Property lookup on a PatternData object. -/
def patternProps (p : PatternData) : JsObj := fun k =>
  if k = "temperature" then some p.temperature
  else if k = "density" then some p.density
  else if k = "stability" then some p.stability
  else if k = "fusionPower" then some p.fusionPower
  else none

/-- Lookup of current[key] on the fusion state for the four compared keys. -/
def stateProp (s : SimState) (k : String) : ℝ :=
  if k = "temperature" then s.temperature
  else if k = "density" then s.density
  else if k = "stability" then s.stability
  else s.fusionPower

/-- One loop iteration of compareState: accumulate (totalWeight,
matchedWeight) for one key. -/
def compareKey (current : SimState) (pattern : JsObj) (key : String) (acc : ℝ × ℝ) : ℝ × ℝ :=
  match pattern key with
  | some pv =>
      let weight : ℝ := if key = "stability" then 2 else 1
      let totalWeight := acc.1 + weight
      let diff := |stateProp current key - pv| / (pv + 1)
      let matchedWeight := if diff < 0.2 then acc.2 + weight else acc.2
      (totalWeight, matchedWeight)
  | none => acc

/-- DecisionEngine.compareState: weighted fraction of matching keys, 0 when
the pattern argument defines none of them. -/
def compareState (current : SimState) (pattern : JsObj) : ℝ :=
  let keys := ["temperature", "density", "stability", "fusionPower"]
  let tw := keys.foldl (fun acc k => compareKey current pattern k acc) (0, 0)
  if tw.1 > 0 then tw.2 / tw.1 else 0

/-- DecisionEngine.calculateMatchScore.  The source loop is
`for (const [pattern, score] of this.patterns)`: Map iteration destructures
each entry as [key, value], so the name pattern is bound to the KEY string
and that key is what compareState receives. -/
def calculateMatchScore (e : DecisionEngine) (state : SimState) : ℝ :=
  if e.patterns.isEmpty then 0.5
  else
    e.patterns.foldl
      (fun bestMatch entry =>
        let m := compareState state (stringProps entry.1)
        if m > bestMatch then m else bestMatch)
      0

/-- DecisionEngine.calculateDecision: logistic scorer on the match score. -/
def calculateDecision (e : DecisionEngine) (input : SimState) : V5Result :=
  let matchScore := calculateMatchScore e input
  let exponent := -2 * e.gamma * (matchScore - e.barrier)
  let P := 1 / (1 + Real.exp exponent)
  { probability := P
    confidence := P
    shouldDecide := P > e.decisionThreshold
    matchScore := matchScore }

/-- DecisionEngine.decideHeating: label and reason. -/
def decideHeating (e : DecisionEngine) (state : SimState) : String × String :=
  if state.temperature < 5e7 then ("PID", "Temperature too low, use aggressive PID")
  else if state.stability < 0.3 then ("ML-PID", "Stability low, use ML-enhanced PID")
  else if state.phase = Phase.burn then ("Adaptive", "Burn phase, adaptive control")
  else (e.currentBest.heating, "Normal operation")

/-- DecisionEngine.decideFuel: label and reason. -/
def decideFuel (e : DecisionEngine) (state : SimState) : String × String :=
  if state.density < 5e19 then ("Pulsed", "Low density, pulsed fueling")
  else if state.stability < 0.4 then ("Predictive", "Low stability, predictive fueling")
  else if state.phase = Phase.burn then ("Feedback", "Burn phase, feedback control")
  else (e.currentBest.fueling, "Normal operation")

/-- DecisionEngine.decideMagnetic: label and reason. -/
def decideMagnetic (e : DecisionEngine) (state : SimState) : String × String :=
  if state.stability < 0.3 then ("AI", "Critical stability, use AI control")
  else if state.phase = Phase.burn then ("Optimized", "Burn phase, optimized magnetic field")
  else (e.currentBest.magnetic, "Normal operation")

/-- DecisionEngine.hashState: quantized bucket key via string concatenation. -/
def hashState (state : SimState) : String :=
  let t := ⌊state.temperature / 1e7⌋
  let d := ⌊state.density / 1e19⌋
  let s := ⌊state.stability * 10⌋
  toString t ++ "_" ++ toString d ++ "_" ++ toString s

/-- DecisionEngine.learn: seed the bucket on first sight, bump count and
totalScore, and overwrite currentBest when the binary success score clears
the 0.8 comparison. -/
def DecisionEngine.learn (e : DecisionEngine) (state : SimState) (decision : Decision) :
    DecisionEngine :=
  let patternKey := hashState state
  let ps0 :=
    if e.patterns.any (fun en => en.1 = patternKey) then e.patterns
    else
      e.patterns ++
        [(patternKey,
          { temperature := state.temperature
            density := state.density
            stability := state.stability
            fusionPower := state.fusionPower
            count := 0
            totalScore := 0 })]
  let successScore : ℝ := if state.stability > 0.5 then 1 else 0
  let ps1 := ps0.map fun en =>
    if en.1 = patternKey then
      (en.1, { en.2 with count := en.2.count + 1, totalScore := en.2.totalScore + successScore })
    else en
  let best :=
    if successScore > 0.8 then
      { heating := decision.actions.heating
        fueling := decision.actions.fueling
        magnetic := decision.actions.magnetic }
    else e.currentBest
  { e with patterns := ps1, currentBest := best }

/-- DecisionEngine.decide: build the decision, learn from it, append it to
the engine history, and return it with the updated engine (Date.now is
passed in as now). -/
def DecisionEngine.decide (e : DecisionEngine) (fusionState : SimState) (now : ℕ) :
    Decision × DecisionEngine :=
  let heatingD := decideHeating e fusionState
  let fuelingD := decideFuel e fusionState
  let magneticD := decideMagnetic e fusionState
  let v5 := calculateDecision e fusionState
  let decision : Decision :=
    { timestamp := now
      state :=
        { temperature := fusionState.temperature
          density := fusionState.density
          stability := fusionState.stability
          phase := fusionState.phase }
      actions := { heating := heatingD.1, fueling := fuelingD.1, magnetic := magneticD.1 }
      rationale := [heatingD.2, fuelingD.2, magneticD.2]
      confidence := v5.confidence
      shouldAct := v5.shouldDecide }
  let e1 := e.learn fusionState decision
  let e2 := { e1 with history := e1.history ++ [decision] }
  (decision, e2)

/-- Similarity between a snapshot and a stored pattern object as the spec
describes compareState (the intended object-level comparison): the four keys
are all defined, stability weighs 2 and the rest 1, a key matches when the
relative difference is below 0.2.  Used to exhibit how the code path
diverges from it. -/
def specCompareState (current : SimState) (p : PatternData) : ℝ :=
  let mT : ℝ := if |current.temperature - p.temperature| / (p.temperature + 1) < 0.2 then 1 else 0
  let mD : ℝ := if |current.density - p.density| / (p.density + 1) < 0.2 then 1 else 0
  let mS : ℝ := if |current.stability - p.stability| / (p.stability + 1) < 0.2 then 2 else 0
  let mF : ℝ := if |current.fusionPower - p.fusionPower| / (p.fusionPower + 1) < 0.2 then 1 else 0
  (mT + mD + mS + mF) / 5

/-- Match score as the spec describes it: 0.5 with no patterns, otherwise the
maximum object-level similarity over all learned patterns. -/
def specMatchScore (patterns : List (String × PatternData)) (current : SimState) : ℝ :=
  if patterns.isEmpty then 0.5
  else patterns.foldl (fun best en => max best (specCompareState current en.2)) 0

end

/-! In-memory key-value store and the TwinCosmos driver (src/index.js). -/

/-- JS String.includes: the needle occurs contiguously somewhere in the
haystack (including the trivial empty needle). -/
def strIncludes (hay query : String) : Bool :=
  (List.range (hay.data.length + 1)).any fun i => query.data.isPrefixOf (hay.data.drop i)

/-- One stored entry of the in-memory store: value, metadata (timestamp and
type tag) and insertion timestamp. -/
structure MemEntry (V : Type) where
  value : V
  meta : ℕ × String
  timestamp : ℕ

/-- The backing Map of the in-memory store, in insertion order. -/
abbrev MemStore (V : Type) : Type := List (String × MemEntry V)

/-- The memory.store closure: Map.set semantics - overwrite in place when
the key exists, else append. -/
def MemStore.storeKV {V : Type} (m : MemStore V) (key : String) (value : V)
    (meta : ℕ × String) (ts : ℕ) : MemStore V :=
  if m.any (fun kv => kv.1 = key) then
    m.map fun kv => if kv.1 = key then (key, ⟨value, meta, ts⟩) else kv
  else m ++ [(key, ⟨value, meta, ts⟩)]

/-- A result row of memory.retrieve, which spreads the entry behind its key. -/
structure RetrievedEntry (V : Type) where
  key : String
  value : V
  meta : ℕ × String
  timestamp : ℕ
deriving DecidableEq

/-- The memory.retrieve closure: linear scan pushing every entry whose key
or serialized value contains the query as a substring (ser stands for
JSON.stringify on the stored value). -/
def MemStore.retrieve {V : Type} (ser : V → String) (m : MemStore V) (query : String) :
    List (RetrievedEntry V) :=
  m.foldl
    (fun results kv =>
      if strIncludes kv.1 query || strIncludes (ser kv.2.value) query then
        results ++ [⟨kv.1, kv.2.value, kv.2.meta, kv.2.timestamp⟩]
      else results)
    []

noncomputable section

/-- The TwinCosmos constructor config; the three enable flags default to
true via nullish coalescing, and the trailing spread keeps a raw present
value, so plain getD models the merge. -/
structure TCConfig where
  memoryEnabled : Option Bool := none
  fusionEnabled : Option Bool := none
  decisionEnabled : Option Bool := none
  reactorType : Option String := none

/-- The resolved TwinCosmos config flags. -/
structure TCResolved where
  memoryEnabled : Bool
  fusionEnabled : Bool
  decisionEnabled : Bool
  reactorType : Option String

/-- The this.state record of TwinCosmos (source field name: initialized). -/
structure TCState where
  inited : Bool
  time : ℝ
  decisions : List Decision

/-- A TwinCosmos instance: resolved config, optional components, state. -/
structure TwinCosmos where
  config : TCResolved
  memory : Option (MemStore Decision)
  fusion : Option FusionSimulator
  decision : Option DecisionEngine
  state : TCState

/-- The TwinCosmos constructor: components empty, not yet initialized. -/
def mkTwinCosmos (config : TCConfig) : TwinCosmos :=
  { config :=
      { memoryEnabled := config.memoryEnabled.getD true
        fusionEnabled := config.fusionEnabled.getD true
        decisionEnabled := config.decisionEnabled.getD true
        reactorType := config.reactorType }
    memory := none
    fusion := none
    decision := none
    state := { inited := false, time := 0, decisions := [] } }

/-- TwinCosmos.initialize (named setup here): build the enabled components
and mark the instance initialized. -/
def TwinCosmos.setup (tc : TwinCosmos) : TwinCosmos :=
  let mem := if tc.config.memoryEnabled then some ([] : MemStore Decision) else tc.memory
  let fus :=
    if tc.config.fusionEnabled then
      some (mkFusionSimulator
        { reactorType := some (jsOrStr tc.config.reactorType "tokamak")
          initialTemperature := some 1e8
          initialDensity := some 1e20 })
    else tc.fusion
  let dec := if tc.config.decisionEnabled then some (mkDecisionEngine {}) else tc.decision
  { tc with
    memory := mem
    fusion := fus
    decision := dec
    state := { tc.state with inited := true } }

/-- The per-tick result record of TwinCosmos.step; results.memory is never
assigned in the source and stays null. -/
structure StepResults where
  time : ℝ
  fusion : Option SimState
  decision : Option Decision
  memory : Option Unit

/-- TwinCosmos.step: throw when not initialized, otherwise advance time, run
the fusion step, decide on its state, and log the decision into memory.
Date.now is passed in as now and the template rendering of the time value in
the memory key as render. -/
def TwinCosmos.step (tc : TwinCosmos) (deltaTime : ℝ) (now : ℕ) (render : ℝ → String) :
    Except String StepResults × TwinCosmos :=
  if tc.state.inited then
    let time1 := tc.state.time + deltaTime
    let fusion1 := tc.fusion.map fun f => f.step deltaTime
    let resFusion : Option SimState := fusion1.map fun f => f.state
    let decPair : Option (Decision × DecisionEngine) :=
      match tc.decision, resFusion with
      | some e, some fs => some (e.decide fs now)
      | _, _ => none
    let resDecision := decPair.map fun p => p.1
    let decision1 :=
      match decPair with
      | some p => some p.2
      | none => tc.decision
    let memory1 :=
      match tc.memory, resDecision with
      | some m, some d => some (m.storeKV ("step_" ++ render time1) d (now, "decision") now)
      | _, _ => tc.memory
    (Except.ok
        { time := time1, fusion := resFusion, decision := resDecision, memory := none },
      { tc with
        fusion := fusion1
        decision := decision1
        memory := memory1
        state := { tc.state with time := time1 } })
  else (Except.error "TwinCosmos not initialized", tc)

end

/-! Helper lemmas: definitional projections of the simulator step. -/

section StepLemmas

lemma stepMid_temperature (sim : FusionSimulator) (dt : ℝ) :
    (stepMid sim dt).state.temperature =
      (sim.state.temperature + (50e6 + calculateFusionPower sim) * dt / 1000) *
        (1 - 0.01 * dt) := rfl

lemma stepMid_density (sim : FusionSimulator) (dt : ℝ) :
    (stepMid sim dt).state.density =
      (sim.state.density + 1e18 * dt) * (1 - 0.001 * dt) := rfl

lemma stepMid_fusionPower (sim : FusionSimulator) (dt : ℝ) :
    (stepMid sim dt).state.fusionPower = calculateFusionPower sim := rfl

lemma stepMid_v5Params (sim : FusionSimulator) (dt : ℝ) :
    (stepMid sim dt).v5Params = sim.v5Params := rfl

lemma step_temperature (sim : FusionSimulator) (dt : ℝ) :
    (sim.step dt).state.temperature = (stepMid sim dt).state.temperature := rfl

lemma step_density (sim : FusionSimulator) (dt : ℝ) :
    (sim.step dt).state.density = (stepMid sim dt).state.density := rfl

lemma step_fusionPower (sim : FusionSimulator) (dt : ℝ) :
    (sim.step dt).state.fusionPower = calculateFusionPower sim := rfl

lemma step_stability (sim : FusionSimulator) (dt : ℝ) :
    (sim.step dt).state.stability =
      calculateV5Barrier (stepMid sim dt) (calculateStability (stepMid sim dt)) := rfl

lemma step_phase (sim : FusionSimulator) (dt : ℝ) :
    (sim.step dt).state.phase =
      (if (stepMid sim dt).state.temperature > 1e8 ∧ (stepMid sim dt).state.fusionPower > 1e6
        then Phase.burn
        else if (stepMid sim dt).state.temperature > 5e7 then Phase.rampUp
        else sim.state.phase) := rfl

lemma calculateFusionPower_eq (sim : FusionSimulator) :
    calculateFusionPower sim =
      sim.state.density * sim.state.density *
        (1.1e-21 * (sim.state.temperature / 1.16e7) ^ 2 /
          (1 + sim.state.temperature / 1.16e7 / 15)) *
        (17.6 * 1.602e-13) := rfl

end StepLemmas

/-- C6: calling TwinCosmos.step before initialization throws the
uninitialized error and returns the instance itself unchanged (time counter
included), for every deltaTime. -/
theorem step_before_init_errors (tc : TwinCosmos) (dt : ℝ) (now : ℕ) (render : ℝ → String)
    (h : tc.state.inited = false) :
    tc.step dt now render = (Except.error "TwinCosmos not initialized", tc) := by
  unfold TwinCosmos.step
  rw [h]
  simp

/-- Witness for C6: a freshly constructed TwinCosmos is uninitialized and
its step call errors out without touching the instance. -/
theorem step_before_init_errors_witness :
    (mkTwinCosmos {}).step 1 0 (fun _ => "") =
      (Except.error "TwinCosmos not initialized", mkTwinCosmos {}) :=
  step_before_init_errors (mkTwinCosmos {}) 1 0 (fun _ => "") rfl

/-- C8 counterexample: passing magneticField 0 does not overwrite the
configured magnetic field, because 0 is falsy in the source's truthiness
guard; the default configuration value 5 survives. -/
theorem applyControl_zero_magnetic_counterexample :
    (applyControl (mkFusionSimulator {}) { magneticField := some 0 }).config.magneticField = 5 ∧
      (5 : ℝ) ≠ 0 := by
  constructor
  · norm_num [applyControl, mkFusionSimulator]
  · norm_num

/-- C8 as amended: a control with only a heating value changes nothing; a
fueling value f scales density by (1 + f) and changes nothing else; a
NONZERO magneticField value overwrites config.magneticField and changes
nothing else (a zero value is falsy and ignored). -/
theorem applyControl_frame (sim : FusionSimulator) (h f b : ℝ) :
    applyControl sim { heating := some h } = sim ∧
      applyControl sim { fueling := some f } =
        { sim with state := { sim.state with density := sim.state.density * (1 + f) } } ∧
      (b ≠ 0 →
        applyControl sim { magneticField := some b } =
          { sim with config := { sim.config with magneticField := b } }) := by
  refine ⟨rfl, ?_, ?_⟩
  · by_cases hf : f = 0
    · subst hf
      have h1 : sim.state.density * (1 + (0 : ℝ)) = sim.state.density := by ring
      rw [h1]
      show (if (0 : ℝ) = 0 then sim else _) = _
      rw [if_pos rfl]
    · show (if f = 0 then sim else _) = _
      rw [if_neg hf]
  · intro hb
    show (if b = 0 then sim else _) = _
    rw [if_neg hb]

/-- Witness for C8: overwriting with the nonzero value 2 lands in the
config as stated. -/
theorem applyControl_frame_witness :
    applyControl (mkFusionSimulator {}) { magneticField := some 2 } =
      { mkFusionSimulator {} with
        config := { (mkFusionSimulator {}).config with magneticField := 2 } } :=
  (applyControl_frame (mkFusionSimulator {}) 1 1 2).2.2 (by norm_num)

/-- Helper: the currentBest field after learn is the tick's action labels
exactly when stability clears 0.5, because the binary success score 1 is the
only value that clears the 0.8 comparison. -/
lemma learn_currentBest (e : DecisionEngine) (s : SimState) (d : Decision) :
    (e.learn s d).currentBest =
      (if s.stability > 0.5 then
        ({ heating := d.actions.heating, fueling := d.actions.fueling,
           magnetic := d.actions.magnetic } : Best)
      else e.currentBest) := by
  show (if (if s.stability > 0.5 then (1 : ℝ) else 0) > 0.8 then
      ({ heating := d.actions.heating, fueling := d.actions.fueling,
         magnetic := d.actions.magnetic } : Best)
    else e.currentBest) = _
  by_cases h : s.stability > 0.5
  · rw [if_pos h, if_pos h, if_pos (by norm_num : (1 : ℝ) > 0.8)]
  · rw [if_neg h, if_neg h, if_neg (by norm_num : ¬ (0 : ℝ) > 0.8)]

/-- Helper: decide changes currentBest exactly the way its learn call does. -/
lemma decide_currentBest (e : DecisionEngine) (s : SimState) (now : ℕ) :
    ((e.decide s now).2).currentBest = (e.learn s (e.decide s now).1).currentBest := rfl

/-- C7: on every decide call the three currentBest labels become this tick's
chosen labels exactly when the snapshot's stability exceeds 0.5 (the binary
success indicator is 1 in that case and clears the 0.8 comparison), and are
all left unchanged otherwise. -/
theorem decide_updates_currentBest_iff_stable (e : DecisionEngine) (s : SimState) (now : ℕ) :
    (s.stability > 0.5 →
      ((e.decide s now).2).currentBest =
        { heating := (e.decide s now).1.actions.heating
          fueling := (e.decide s now).1.actions.fueling
          magnetic := (e.decide s now).1.actions.magnetic }) ∧
      (¬ s.stability > 0.5 → ((e.decide s now).2).currentBest = e.currentBest) := by
  constructor
  · intro h
    rw [decide_currentBest, learn_currentBest, if_pos h]
  · intro h
    rw [decide_currentBest, learn_currentBest, if_neg h]

/-- A fusion state with stability 0.9, used to witness the stable branch. -/
def demoStateHigh : SimState :=
  { temperature := 1.5e8, density := 1e20, stability := 0.9, fusionPower := 5e7,
    confinementTime := 3, phase := Phase.burn, time := 0, history := [] }

/-- Witness for C7: with stability 0.9 the currentBest labels are
overwritten by the decided actions. -/
theorem decide_updates_currentBest_iff_stable_witness :
    (((mkDecisionEngine {}).decide demoStateHigh 0).2).currentBest =
      { heating := ((mkDecisionEngine {}).decide demoStateHigh 0).1.actions.heating
        fueling := ((mkDecisionEngine {}).decide demoStateHigh 0).1.actions.fueling
        magnetic := ((mkDecisionEngine {}).decide demoStateHigh 0).1.actions.magnetic } :=
  (decide_updates_currentBest_iff_stable (mkDecisionEngine {}) demoStateHigh 0).1
    (by norm_num [demoStateHigh])

/-- C3: from a freshly constructed simulator with temperature 1e7 K and
density 5e19, one step with deltaTime 1 stores exactly the closed-form
reactivity formula evaluated on the pre-tick values: the updater records the
power computed from the pre-update temperature and density. -/
theorem first_tick_fusionPower_closed_form :
    ((mkFusionSimulator
          { initialTemperature := some 1e7, initialDensity := some 5e19 }).step 1).state.fusionPower
      = (5e19 : ℝ) ^ 2 *
          (1.1e-21 * (1e7 / 1.16e7) ^ 2 / (1 + (1e7 / 1.16e7) / 15)) *
          (17.6 * 1.602e-13) := by
  rw [step_fusionPower, calculateFusionPower_eq]
  simp only [mkFusionSimulator, Option.getD_some]
  ring

/-- C5: with a barrier in the unit interval and positive gamma, feeding the
barrier itself through the logistic scorer yields exactly one half,
independently of gamma, both in the plasma path calculateV5Barrier (which
clamps its input first) and in the decision path calculateDecision (whenever
the match score equals the engine barrier). -/
theorem score_at_barrier_is_half (sim : FusionSimulator) (e : DecisionEngine) (s : SimState)
    (hb0 : 0 ≤ sim.v5Params.barrier) (hb1 : sim.v5Params.barrier ≤ 1)
    (hg : 0 < sim.v5Params.gamma) (hg2 : 0 < e.gamma) :
    calculateV5Barrier sim sim.v5Params.barrier = 1 / 2 ∧
      (calculateMatchScore e s = e.barrier → (calculateDecision e s).probability = 1 / 2) := by
  constructor
  · have hnorm : normalizeInput sim.v5Params.barrier = sim.v5Params.barrier := by
      unfold normalizeInput
      rw [min_eq_right hb1, max_eq_right hb0]
    show (1 : ℝ) /
        (1 + Real.exp (-2 * sim.v5Params.gamma *
          (normalizeInput sim.v5Params.barrier - sim.v5Params.barrier))) = 1 / 2
    rw [hnorm, sub_self, mul_zero, Real.exp_zero]
    norm_num
  · intro hms
    show (1 : ℝ) / (1 + Real.exp (-2 * e.gamma * (calculateMatchScore e s - e.barrier))) = 1 / 2
    rw [hms, sub_self, mul_zero, Real.exp_zero]
    norm_num

/-- A cold-start fusion state used as a concrete decision input. -/
def demoStateLow : SimState :=
  { temperature := 1e6, density := 1e18, stability := 0.1, fusionPower := 0,
    confinementTime := 3, phase := Phase.ignition, time := 0, history := [] }

/-- Witness for C5: the default simulator (barrier 0.5, gamma 2) and the
default engine (barrier 0.5, gamma 1.5, no patterns so the match score is
the default 0.5) both score one half at the barrier. -/
theorem score_at_barrier_is_half_witness :
    calculateV5Barrier (mkFusionSimulator {}) (mkFusionSimulator {}).v5Params.barrier = 1 / 2 ∧
      (calculateDecision (mkDecisionEngine {}) demoStateLow).probability = 1 / 2 := by
  have h := score_at_barrier_is_half (mkFusionSimulator {}) (mkDecisionEngine {}) demoStateLow
    (by norm_num [mkFusionSimulator]) (by norm_num [mkFusionSimulator])
    (by norm_num [mkFusionSimulator]) (by norm_num [mkDecisionEngine, jsOrNum])
  exact ⟨h.1, h.2 rfl⟩

/-- Helper: bounds of the simulator's logistic scorer with barrier 0.5 and
gamma 2 on any input, after clamping. -/
lemma v5Barrier_bounds (sim : FusionSimulator) (x : ℝ)
    (hb : sim.v5Params.barrier = 0.5) (hg : sim.v5Params.gamma = 2) :
    1 / (1 + Real.exp 2) ≤ calculateV5Barrier sim x ∧
      calculateV5Barrier sim x ≤ 1 / (1 + Real.exp (-2)) ∧
      0 < calculateV5Barrier sim x ∧ calculateV5Barrier sim x < 1 := by
  have hcalc : calculateV5Barrier sim x
      = 1 / (1 + Real.exp (-2 * 2 * (normalizeInput x - 0.5))) := by
    show (1 : ℝ) /
        (1 + Real.exp (-2 * sim.v5Params.gamma * (normalizeInput x - sim.v5Params.barrier))) = _
    rw [hb, hg]
  rw [hcalc]
  have hy0 : (0 : ℝ) ≤ normalizeInput x := le_max_left _ _
  have hy1 : normalizeInput x ≤ 1 := max_le (by norm_num) (min_le_left _ _)
  have ht1 : -2 * 2 * (normalizeInput x - 0.5) ≤ 2 := by nlinarith
  have ht2 : (-2 : ℝ) ≤ -2 * 2 * (normalizeInput x - 0.5) := by nlinarith
  have hexp_pos := Real.exp_pos (-2 * 2 * (normalizeInput x - 0.5))
  refine ⟨?_, ?_, ?_, ?_⟩
  · apply one_div_le_one_div_of_le
    · positivity
    · have := Real.exp_le_exp.mpr ht1
      linarith
  · apply one_div_le_one_div_of_le
    · positivity
    · have := Real.exp_le_exp.mpr ht2
      linarith
  · positivity
  · rw [div_lt_one (by positivity)]
    linarith

/-- C10: after any step of a simulator carrying the constructor's V5
parameters (barrier 0.5, gamma 2), the stored stability is the logistic
output of a clamped input and so lies in the closed band from 1/(1+e^2) to
1/(1+e^-2), strictly inside the open unit interval. -/
theorem stability_strictly_inside_unit (sim : FusionSimulator) (dt : ℝ)
    (hb : sim.v5Params.barrier = 0.5) (hg : sim.v5Params.gamma = 2) :
    1 / (1 + Real.exp 2) ≤ (sim.step dt).state.stability ∧
      (sim.step dt).state.stability ≤ 1 / (1 + Real.exp (-2)) ∧
      0 < (sim.step dt).state.stability ∧ (sim.step dt).state.stability < 1 := by
  rw [step_stability]
  exact v5Barrier_bounds (stepMid sim dt) _
    (by rw [stepMid_v5Params]; exact hb) (by rw [stepMid_v5Params]; exact hg)

/-- Witness for C10: the default simulator after one unit step has a
stability strictly inside the unit interval, within the stated band. -/
theorem stability_strictly_inside_unit_witness :
    1 / (1 + Real.exp 2) ≤ ((mkFusionSimulator {}).step 1).state.stability ∧
      ((mkFusionSimulator {}).step 1).state.stability ≤ 1 / (1 + Real.exp (-2)) ∧
      0 < ((mkFusionSimulator {}).step 1).state.stability ∧
      ((mkFusionSimulator {}).step 1).state.stability < 1 :=
  stability_strictly_inside_unit (mkFusionSimulator {}) 1
    (by norm_num [mkFusionSimulator]) (by norm_num [mkFusionSimulator])

noncomputable section

/-- A fusion state that gets learned as a pattern and then queried again. -/
def bugState : SimState :=
  { temperature := 1e8, density := 1e20, stability := 0.9, fusionPower := 1e6,
    confinementTime := 3, phase := Phase.burn, time := 0, history := [] }

/-- A decision record accompanying the learn call on bugState. -/
def bugDecision : Decision :=
  { timestamp := 0
    state := { temperature := 1e8, density := 1e20, stability := 0.9, phase := Phase.burn }
    actions := { heating := "Adaptive", fueling := "Feedback", magnetic := "Optimized" }
    rationale := []
    confidence := 0
    shouldAct := True }

/-- The default engine after learning bugState once. -/
def bugEngine : DecisionEngine := (mkDecisionEngine {}).learn bugState bugDecision

end

/-- C2 (code bug): with one learned pattern, calculateMatchScore evaluated
on the very snapshot that seeded the pattern returns 0, not the maximal
weighted similarity 1 that the spec describes, because the source loop
destructures each Map entry as [pattern, score] and hands the KEY STRING to
compareState, where every property lookup is undefined. -/
theorem matchScore_uses_map_keys :
    bugEngine.patterns.length = 1 ∧
      calculateMatchScore bugEngine bugState = 0 ∧
      specMatchScore bugEngine.patterns bugState = 1 := by
  have hpat : bugEngine.patterns
      = [(hashState bugState,
          { temperature := 1e8, density := 1e20, stability := 0.9, fusionPower := 1e6,
            count := 1, totalScore := 1 })] := by
    unfold bugEngine DecisionEngine.learn
    norm_num [mkDecisionEngine, bugState]
  refine ⟨by rw [hpat]; rfl, ?_, ?_⟩
  · unfold calculateMatchScore
    rw [hpat]
    norm_num [compareState, compareKey, stringProps]
  · unfold specMatchScore
    rw [hpat]
    norm_num [specCompareState, bugState]

/-- Helper: the retrieve loop accumulates exactly the filter of matching
entries, mapped to result rows. -/
lemma retrieve_foldl_eq {V : Type} (ser : V → String) (q : String) (m : MemStore V)
    (acc : List (RetrievedEntry V)) :
    m.foldl
        (fun results kv =>
          if strIncludes kv.1 q || strIncludes (ser kv.2.value) q then
            results ++ [⟨kv.1, kv.2.value, kv.2.meta, kv.2.timestamp⟩]
          else results) acc
      = acc ++
          ((m.filter fun kv => strIncludes kv.1 q || strIncludes (ser kv.2.value) q).map
            fun kv => ⟨kv.1, kv.2.value, kv.2.meta, kv.2.timestamp⟩) := by
  induction m generalizing acc with
  | nil => simp
  | cons kv m ih =>
    rw [List.foldl_cons, List.filter_cons]
    by_cases h : (strIncludes kv.1 q || strIncludes (ser kv.2.value) q) = true
    · rw [if_pos h, if_pos h, ih]
      simp
    · rw [if_neg h, if_neg h, ih]

/-- Helper: after storing under a key, the freshly stored entry is in the
map (Map.set either overwrites in place or appends). -/
lemma storeKV_mem {V : Type} (m : MemStore V) (key : String) (v : V)
    (meta : ℕ × String) (ts : ℕ) :
    (key, (⟨v, meta, ts⟩ : MemEntry V)) ∈ m.storeKV key v meta ts := by
  unfold MemStore.storeKV
  by_cases h : m.any (fun kv => kv.1 = key) = true
  · rw [if_pos h]
    obtain ⟨kv0, hmem, hk⟩ := List.any_eq_true.mp h
    refine List.mem_map.mpr ⟨kv0, hmem, ?_⟩
    rw [if_pos (of_decide_eq_true hk)]
  · rw [if_neg h]
    exact List.mem_append_right _ (List.mem_singleton.mpr rfl)

/-- C9: retrieve returns exactly the stored entries whose key or serialized
value contains the query as a substring; in particular after storing under
key a1 a query for a returns that entry, and a query matching no key and no
serialized value returns the empty list. -/
theorem retrieve_substring_spec {V : Type} (ser : V → String) (m : MemStore V) (q : String)
    (v : V) (meta : ℕ × String) (ts : ℕ) :
    MemStore.retrieve ser m q
        = ((m.filter fun kv => strIncludes kv.1 q || strIncludes (ser kv.2.value) q).map
            fun kv => ⟨kv.1, kv.2.value, kv.2.meta, kv.2.timestamp⟩) ∧
      (⟨"a1", v, meta, ts⟩ : RetrievedEntry V) ∈
        MemStore.retrieve ser (m.storeKV "a1" v meta ts) "a" ∧
      ((∀ kv ∈ m, strIncludes kv.1 q = false ∧ strIncludes (ser kv.2.value) q = false) →
        MemStore.retrieve ser m q = []) := by
  refine ⟨?_, ?_, ?_⟩
  · unfold MemStore.retrieve
    rw [retrieve_foldl_eq]
    simp
  · unfold MemStore.retrieve
    rw [retrieve_foldl_eq]
    simp only [List.nil_append]
    refine List.mem_map.mpr ⟨("a1", ⟨v, meta, ts⟩), ?_, rfl⟩
    refine List.mem_filter.mpr ⟨storeKV_mem m "a1" v meta ts, ?_⟩
    have hsub : strIncludes "a1" "a" = true := by decide
    simp [hsub]
  · intro hnone
    unfold MemStore.retrieve
    rw [retrieve_foldl_eq]
    simp only [List.nil_append, List.map_eq_nil_iff, List.filter_eq_nil_iff]
    intro kv hkv
    rcases hnone kv hkv with ⟨h1, h2⟩
    simp [h1, h2]

/-- Witness for C9: a store whose single key and serialized value both miss
the query yields an empty retrieval. -/
theorem retrieve_substring_spec_witness :
    MemStore.retrieve (fun s => s)
        [("k", (⟨"v", (0, "t"), 0⟩ : MemEntry String))] "zz" = [] :=
  (retrieve_substring_spec (fun s => s) [("k", (⟨"v", (0, "t"), 0⟩ : MemEntry String))]
      "zz" "x" (0, "t") 0).2.2 (by decide)

/-- Helper: dropping within the left part of an append. -/
lemma drop_append_left {α : Type} (l1 l2 : List α) (n : ℕ) (h : n ≤ l1.length) :
    (l1 ++ l2).drop n = l1.drop n ++ l2 := by
  induction l1 generalizing n with
  | nil =>
    simp only [List.length_nil, Nat.le_zero] at h
    subst h
    simp
  | cons a l ih =>
    cases n with
    | zero => simp
    | succ k =>
      simp only [List.cons_append, List.drop_succ_cons]
      exact ih k (by simpa using h)

/-- Helper: the head of a list after dropping one element is its second
element. -/
lemma head_drop_one {α : Type} (l : List α) : (l.drop 1).head? = l.get? 1 := by
  cases l with
  | nil => rfl
  | cons a l =>
    cases l with
    | nil => rfl
    | cons b l => rfl

/-- Helper: one step turns the history into the pushed list with the
overflow prefix dropped. -/
lemma step_history (sim : FusionSimulator) (dt : ℝ) (h : sim.state.history.length ≤ 1000) :
    (sim.step dt).state.history
      = (sim.state.history ++ [snapOf (stepCore sim dt)]).drop
          (sim.state.history.length + 1 - 1000) := by
  show (if (sim.state.history ++ [snapOf (stepCore sim dt)]).length > 1000
      then (sim.state.history ++ [snapOf (stepCore sim dt)]).tail
      else sim.state.history ++ [snapOf (stepCore sim dt)]) = _
  rw [List.length_append]
  by_cases hl : sim.state.history.length = 1000
  · rw [if_pos (by simp [hl]), hl]
    simp [List.drop_one]
  · rw [if_neg (by simp; omega)]
    rw [show sim.state.history.length + 1 - 1000 = 0 from by omega, List.drop_zero]

/-- Helper: the length of the appended-snapshot list equals the number of
ticks. -/
lemma snapList_length (dts : List ℝ) : ∀ sim : FusionSimulator,
    (snapList sim dts).length = dts.length := by
  induction dts with
  | nil => intro sim; rfl
  | cons dt dts ih => intro sim; simp [snapList, ih]

/-- Helper: over a whole run from a history within bounds, the final history
is the concatenation of the starting history and all appended snapshots with
exactly the overflow dropped from the front. -/
lemma runSim_history (dts : List ℝ) : ∀ sim : FusionSimulator,
    sim.state.history.length ≤ 1000 →
    (runSim sim dts).state.history
      = (sim.state.history ++ snapList sim dts).drop
          (sim.state.history.length + dts.length - 1000) := by
  induction dts with
  | nil =>
    intro sim h
    show sim.state.history = _
    rw [show snapList sim [] = [] from rfl, List.append_nil]
    rw [show sim.state.history.length + List.length [] - 1000 = 0 from by simp; omega]
    rw [List.drop_zero]
  | cons dt dts ih =>
    intro sim h
    have hrun : runSim sim (dt :: dts) = runSim (sim.step dt) dts := rfl
    have hstep := step_history sim dt h
    have hlen1 : (sim.step dt).state.history.length ≤ 1000 := by
      rw [hstep]
      simp only [List.length_drop, List.length_append, List.length_singleton]
      omega
    rw [hrun, ih (sim.step dt) hlen1, hstep]
    rw [show snapList sim (dt :: dts)
        = snapOf (stepCore sim dt) :: snapList (sim.step dt) dts from rfl]
    rw [show sim.state.history ++ (snapOf (stepCore sim dt) :: snapList (sim.step dt) dts)
        = (sim.state.history ++ [snapOf (stepCore sim dt)]) ++ snapList (sim.step dt) dts
        from by simp]
    rw [← drop_append_left (sim.state.history ++ [snapOf (stepCore sim dt)])
        (snapList (sim.step dt) dts) (sim.state.history.length + 1 - 1000)
        (by simp; omega)]
    rw [List.drop_drop]
    have hidx : sim.state.history.length + 1 - 1000 +
        (((sim.state.history ++ [snapOf (stepCore sim dt)]).drop
            (sim.state.history.length + 1 - 1000)).length + dts.length - 1000)
        = sim.state.history.length + (dt :: dts).length - 1000 := by
      simp only [List.length_drop, List.length_append, List.length_singleton, List.length_cons,
        List.length_nil]
      omega
    rw [hidx]

/-- C4: from a fresh simulator, after any list of ticks the history is the
suffix of all appended snapshots with exactly the overflow beyond 1000
dropped from the front (strict FIFO): its length is min(ticks, 1000), and
after exactly 1001 ticks the oldest retained entry is the snapshot appended
by tick number 2. -/
theorem history_bounded_fifo (cfg : FusionConfig) (dts : List ℝ) :
    (runSim (mkFusionSimulator cfg) dts).state.history
        = (snapList (mkFusionSimulator cfg) dts).drop (dts.length - 1000) ∧
      (runSim (mkFusionSimulator cfg) dts).state.history.length = min dts.length 1000 ∧
      (dts.length = 1001 →
        (runSim (mkFusionSimulator cfg) dts).state.history.head?
          = (snapList (mkFusionSimulator cfg) dts).get? 1) := by
  have hmain := runSim_history dts (mkFusionSimulator cfg) (by
    rw [show (mkFusionSimulator cfg).state.history = [] from rfl]
    simp)
  rw [show (mkFusionSimulator cfg).state.history = [] from rfl] at hmain
  simp only [List.nil_append, List.length_nil, Nat.zero_add] at hmain
  refine ⟨hmain, ?_, ?_⟩
  · rw [hmain, List.length_drop, snapList_length]
    omega
  · intro h1001
    rw [hmain, h1001]
    rw [show 1001 - 1000 = 1 from rfl]
    exact head_drop_one _

/-- Witness for C4: a run of 1001 unit ticks retains as oldest entry the
snapshot appended by the second tick. -/
theorem history_bounded_fifo_witness :
    (runSim (mkFusionSimulator {}) (List.replicate 1001 1)).state.history.head?
      = (snapList (mkFusionSimulator {}) (List.replicate 1001 1)).get? 1 :=
  (history_bounded_fifo {} (List.replicate 1001 1)).2.2 (by rw [List.length_replicate])

/-- C1 counterexample: a reachable run refutes phase monotonicity.  From a
constructor config with initial temperature 1.16e8 K (density default 1e20),
the first unit tick reaches burn (updated temperature about 1.167e8 K and
stored fusion power about 1.86e9 W), and a following tick of 60 s cools the
temperature to about 9.38e7 K, in (5e7, 1e8], so the rule moves phase from
burn back to ramp-up. -/
theorem burn_to_rampUp_counterexample :
    ((mkFusionSimulator { initialTemperature := some 1.16e8 }).step 1).state.phase
        = Phase.burn ∧
      (((mkFusionSimulator { initialTemperature := some 1.16e8 }).step 1).step 60).state.phase
        = Phase.rampUp := by
  have hT0 : (mkFusionSimulator { initialTemperature := some 1.16e8 }).state.temperature
      = 1.16e8 := rfl
  have hD0 : (mkFusionSimulator { initialTemperature := some 1.16e8 }).state.density
      = 1e20 := rfl
  have hfp0 : calculateFusionPower (mkFusionSimulator { initialTemperature := some 1.16e8 })
      = 1.8608832e9 := by
    rw [calculateFusionPower_eq, hT0, hD0]
    norm_num
  have hT1 : ((mkFusionSimulator { initialTemperature := some 1.16e8 }).step 1).state.temperature
      = 116731774.368 := by
    rw [step_temperature, stepMid_temperature, hT0, hfp0]
    norm_num
  have hD1 : ((mkFusionSimulator { initialTemperature := some 1.16e8 }).step 1).state.density
      = 1.00899e20 := by
    rw [step_density, stepMid_density, hD0]
    norm_num
  constructor
  · rw [step_phase, stepMid_temperature, stepMid_fusionPower, hT0, hfp0]
    norm_num
  · rw [step_phase, stepMid_temperature, stepMid_fusionPower, calculateFusionPower_eq,
      hT1, hD1]
    norm_num

/-- C1 as amended: the phase rule writes only burn or ramp-up, so a tick
never moves phase INTO ignition or decline from elsewhere; but phase is not
monotone: from burn a tick can only stay at burn or fall back to ramp-up,
and the fall-back does occur (see the counterexample). -/
theorem phase_no_reentry (sim : FusionSimulator) (dt : ℝ) :
    ((sim.step dt).state.phase = Phase.ignition → sim.state.phase = Phase.ignition) ∧
      ((sim.step dt).state.phase = Phase.decline → sim.state.phase = Phase.decline) ∧
      (sim.state.phase = Phase.burn →
        (sim.step dt).state.phase = Phase.burn ∨ (sim.step dt).state.phase = Phase.rampUp) := by
  rw [step_phase]
  by_cases h1 : (stepMid sim dt).state.temperature > 1e8 ∧
      (stepMid sim dt).state.fusionPower > 1e6
  · rw [if_pos h1]
    exact ⟨fun h => absurd h (by decide), fun h => absurd h (by decide), fun _ => Or.inl rfl⟩
  · rw [if_neg h1]
    by_cases h2 : (stepMid sim dt).state.temperature > 5e7
    · rw [if_pos h2]
      exact ⟨fun h => absurd h (by decide), fun h => absurd h (by decide), fun _ => Or.inr rfl⟩
    · rw [if_neg h2]
      exact ⟨fun h => h, fun h => h, fun h => Or.inl h⟩

/-- A simulator instance pinned at the burn phase, used as a witness input. -/
def burnSim : FusionSimulator :=
  { config :=
      { reactorType := "tokamak", initialTemperature := 1e8, initialDensity := 1e20,
        confinementTime := 3, majorRadius := 6, minorRadius := 2, magneticField := 5 }
    state :=
      { temperature := 1e8, density := 1e20, confinementTime := 3, fusionPower := 0,
        stability := 0.5, phase := Phase.burn, time := 0, history := [] }
    v5Params := { barrier := 0.5, gamma := 2, rangeMin := 0, rangeMax := 1 } }

/-- Witness for the amended C1: from a burn-phase state, one tick lands in
burn or ramp-up. -/
theorem phase_no_reentry_witness :
    (burnSim.step 1).state.phase = Phase.burn ∨ (burnSim.step 1).state.phase = Phase.rampUp :=
  (phase_no_reentry burnSim 1).2.2 rfl
